import Mathlib

/-!
Verification of the dependency-injection container and event emitter of the
Anna repository (`src/lib/dependency.ts`, `src/lib/event.ts`).

The TypeScript code is shallowly embedded as functions over an explicit heap:
JavaScript objects with identity (registries, service descriptors, factory
closures, produced instances) become numeric ids into heap maps, so that the
reference sharing performed by `createScope` (`new Map(this.services)` copies
descriptor references, not descriptor contents) and the truthiness test
`!descriptor.implementation` are modelled exactly as the source performs them.
Factories are effectful closures; we model the closure behaviours the spec's
properties exercise (constant result, fresh-object result, counter result,
throwing) together with a per-closure invocation counter.
-/

/-- JavaScript values relevant to the container: primitives plus object
references with identity.  `truthy` mirrors JavaScript coercion to Bool. -/
inductive Value where
  | vNull
  | vUndefined
  | vInt (n : Int)
  | vStr (s : String)
  | vBool (b : Bool)
  | vObj (id : Nat)
deriving DecidableEq, Repr

/-- JavaScript truthiness of a `Value`. -/
def Value.truthy : Value → Bool
  | .vNull => false
  | .vUndefined => false
  | .vInt n => n != 0
  | .vStr s => s != ""
  | .vBool b => b
  | .vObj _ => true

/-- The `ServiceLifetime` enum of `src/lib/dependency.ts`. -/
inductive ServiceLifetime where
  | Singleton
  | Scoped
  | Transient
deriving DecidableEq, Repr

/-- Behaviour of a zero-argument factory closure: return a fixed value,
allocate a fresh object each call, return how often it was called before
(a counter closure), or throw. -/
inductive Factory where
  | const (v : Value)
  | freshObj
  | counter
  | fThrows (e : Nat)
deriving DecidableEq, Repr

/-- A factory whose produced value is truthy on every invocation. -/
def Factory.alwaysTruthy : Factory → Bool
  | .const v => v.truthy
  | .freshObj => true
  | .counter => false
  | .fThrows _ => false

/-- A factory that never throws. -/
def Factory.nonThrowing : Factory → Bool
  | .fThrows _ => false
  | _ => true

/-- Errors: the container's own not-found error (`Service '<name>' not
found!`) versus an arbitrary error thrown by user code (a factory or an
event handler). -/
inductive Err where
  | notFound (name : String)
  | userError (e : Nat)
deriving DecidableEq, Repr

/-- Whether a resolution outcome is the container's not-found error. -/
def raisesNotFound : Except Err Value → Bool
  | .error (.notFound _) => true
  | _ => false

/-- Pointwise update of a `Nat`-indexed map. -/
def updN {α : Type} (m : Nat → α) (k : Nat) (v : α) : Nat → α :=
  fun q => if q = k then v else m q

/-- Pointwise update of a `String`-indexed map. -/
def updS {α : Type} (m : String → α) (k : String) (v : α) : String → α :=
  fun q => if q = k then v else m q

@[simp] theorem updN_same {α : Type} (m : Nat → α) (k : Nat) (v : α) :
    updN m k v k = v := by simp [updN]

@[simp] theorem updN_other {α : Type} (m : Nat → α) (k q : Nat) (v : α)
    (hq : q ≠ k) : updN m k v q = m q := by simp [updN, hq]

@[simp] theorem updS_same {α : Type} (m : String → α) (k : String) (v : α) :
    updS m k v k = v := by simp [updS]

@[simp] theorem updS_other {α : Type} (m : String → α) (k q : String) (v : α)
    (hq : q ≠ k) : updS m k v q = m q := by simp [updS, hq]

/-- The `ServiceDescriptor` interface: a mutable descriptor object.
`factory` holds the id of a factory closure when present. -/
structure ServiceDescriptor where
  implementation : Value
  lifetime : ServiceLifetime
  factory : Option Nat
deriving DecidableEq, Repr

/-- The private fields of one `Services` instance: its own descriptor table
(name to descriptor id — ids model the reference semantics of
`Map<string, ServiceDescriptor>`), its private `scopedInstances` cache, and
the optional parent registry. -/
structure RegState where
  services : String → Option Nat
  scopedInstances : String → Option Value
  parent : Option Nat

/-- The global heap: registry objects, descriptor objects, factory closures
with their invocation counts, and a fresh-object allocator. -/
structure Heap where
  regs : Nat → RegState
  nextReg : Nat
  descs : Nat → ServiceDescriptor
  nextDesc : Nat
  facs : Nat → Factory
  facCalls : Nat → Nat
  nextObj : Nat

/-- Replace registry `r`'s state. -/
def setReg (h : Heap) (r : Nat) (s : RegState) : Heap :=
  { h with regs := updN h.regs r s }

/-- `this.scopedInstances.set(name, v)` on registry `r`. -/
def setScopedInstance (h : Heap) (r : Nat) (name : String) (v : Value) : Heap :=
  setReg h r { h.regs r with
    scopedInstances := updS (h.regs r).scopedInstances name (some v) }

/-- `this.services.set(name, descriptor)` on registry `r`, storing a
reference to descriptor `did`. -/
def setServiceEntry (h : Heap) (r : Nat) (name : String) (did : Nat) : Heap :=
  setReg h r { h.regs r with
    services := updS (h.regs r).services name (some did) }

/-- Allocate a fresh descriptor object, returning its id. -/
def addDescriptor (h : Heap) (d : ServiceDescriptor) : Heap × Nat :=
  ({ h with descs := updN h.descs h.nextDesc d, nextDesc := h.nextDesc + 1 },
   h.nextDesc)

/-- `Services.addSingleton`: register an already-constructed value. -/
def addSingleton (h : Heap) (r : Nat) (name : String) (service : Value) : Heap :=
  let p := addDescriptor h
    { implementation := service, lifetime := .Singleton, factory := none }
  setServiceEntry p.1 r name p.2

/-- `Services.addSingletonFactory`: register a lazy singleton
(`implementation: null` together with the factory closure). -/
def addSingletonFactory (h : Heap) (r : Nat) (name : String) (fid : Nat) : Heap :=
  let p := addDescriptor h
    { implementation := .vNull, lifetime := .Singleton, factory := some fid }
  setServiceEntry p.1 r name p.2

/-- `Services.addTransient`. -/
def addTransient (h : Heap) (r : Nat) (name : String) (fid : Nat) : Heap :=
  let p := addDescriptor h
    { implementation := .vNull, lifetime := .Transient, factory := some fid }
  setServiceEntry p.1 r name p.2

/-- `Services.addScoped`. -/
def addScoped (h : Heap) (r : Nat) (name : String) (fid : Nat) : Heap :=
  let p := addDescriptor h
    { implementation := .vNull, lifetime := .Scoped, factory := some fid }
  setServiceEntry p.1 r name p.2

/-- `Services.createScope`: a new registry whose parent is `r` and whose
descriptor table is `new Map(this.services)` — a shallow copy sharing the
descriptor references; the scoped cache starts empty. -/
def createScope (h : Heap) (r : Nat) : Heap × Nat :=
  let child : RegState :=
    { services := (h.regs r).services
      scopedInstances := fun _ => none
      parent := some r }
  ({ setReg h h.nextReg child with nextReg := h.nextReg + 1 }, h.nextReg)

/-- Invoke factory closure `fid`: bump its call count and produce its
result or throw. -/
def runFactory (h : Heap) (fid : Nat) : Heap × Except Err Value :=
  let h1 : Heap := { h with facCalls := updN h.facCalls fid (h.facCalls fid + 1) }
  match h.facs fid with
  | .const v => (h1, .ok v)
  | .freshObj => ({ h1 with nextObj := h1.nextObj + 1 }, .ok (.vObj h.nextObj))
  | .counter => (h1, .ok (.vInt (h.facCalls fid)))
  | .fThrows e => (h1, .error (.userError e))

/-- The body of `getRequiredService` guarded by `this.services.has(name)`:
the lifetime switch.  Returns `none` when `name` is not in `r`'s own table. -/
def resolveLocal (h : Heap) (r : Nat) (name : String) :
    Option (Heap × Except Err Value) :=
  match (h.regs r).services name with
  | none => none
  | some did =>
    let d := h.descs did
    some (match d.lifetime with
      | .Singleton =>
        match d.factory with
        | some fid =>
          if d.implementation.truthy then
            (h, .ok d.implementation)
          else
            match runFactory h fid with
            | (h1, .ok v) =>
              ({ h1 with
                  descs := updN h1.descs did { d with implementation := v } },
               .ok v)
            | (h1, .error e) => (h1, .error e)
        | none => (h, .ok d.implementation)
      | .Transient =>
        match d.factory with
        | some fid => runFactory h fid
        | none => (h, .ok d.implementation)
      | .Scoped =>
        match (h.regs r).scopedInstances name with
        | some v => (h, .ok v)
        | none =>
          match d.factory with
          | some fid =>
            match runFactory h fid with
            | (h1, .ok v) => (setScopedInstance h1 r name v, .ok v)
            | (h1, .error e) => (h1, .error e)
          | none =>
            (setScopedInstance h r name d.implementation, .ok d.implementation))

/-- `Services.getRequiredService`, with explicit fuel bounding the parent
chain (every reachable registry's parent has a smaller id, so `r + 1` fuel
suffices). -/
def getRequiredServiceAux (fuel : Nat) (h : Heap) (r : Nat) (name : String) :
    Heap × Except Err Value :=
  match fuel with
  | 0 => (h, .error (.notFound name))
  | fuel' + 1 =>
    match resolveLocal h r name with
    | some res => res
    | none =>
      match (h.regs r).parent with
      | some p => getRequiredServiceAux fuel' h p name
      | none => (h, .error (.notFound name))

/-- `Services.getRequiredService` on registry `r`. -/
def getRequiredService (h : Heap) (r : Nat) (name : String) :
    Heap × Except Err Value :=
  getRequiredServiceAux (r + 1) h r name

/-- `Services.getService`: `try getRequiredService catch return undefined`.
State mutated before a throw persists, so the heap of the failed attempt is
kept; the caller receives `undefined` both for an absent service and for any
error. -/
def getService (h : Heap) (r : Nat) (name : String) : Heap × Value :=
  match getRequiredService h r name with
  | (h1, .ok v) => (h1, v)
  | (h1, .error _) => (h1, .vUndefined)

/-- Registry state of `new Services()` with no parent. -/
def emptyReg : RegState :=
  { services := fun _ => none, scopedInstances := fun _ => none, parent := none }

/-- Initial heap: registry `0` is the root registry (`new Services()`); no
descriptors or factory closures defined yet. -/
def initHeap : Heap :=
  { regs := fun _ => emptyReg
    nextReg := 1
    descs := fun _ =>
      { implementation := .vUndefined, lifetime := .Singleton, factory := none }
    nextDesc := 0
    facs := fun _ => .const .vUndefined
    facCalls := fun _ => 0
    nextObj := 0 }

/-- Install a factory closure in the heap under id `fid` (models the caller
constructing the closure it will pass to a registration method). -/
def withFactory (h : Heap) (fid : Nat) (f : Factory) : Heap :=
  { h with facs := updN h.facs fid f }

/-! ### Event emitter (`src/lib/event.ts`) -/

/-- Behaviour of an event handler closure: append a tagged entry to a shared
log, or throw. -/
inductive Handler where
  | log (tag : Nat)
  | hThrows (e : Nat)
deriving DecidableEq, Repr

/-- Whether a handler is a logging handler. -/
def Handler.isLog : Handler → Bool
  | .log _ => true
  | .hThrows _ => false

/-- The tag carried by a handler. -/
def Handler.tagOf : Handler → Nat
  | .log t => t
  | .hThrows e => e

/-- A handler-invocation log: which handler ran, with which arguments. -/
abbrev EventLog := List (Nat × List Value)

/-- The `EventEmitter` listener table: `this.listeners[name]` is `undefined`
until the first subscription creates the array. -/
structure EventEmitter where
  listeners : String → Option (List Handler)

/-- A fresh emitter: no listener array exists for any name. -/
def emptyEmitter : EventEmitter := { listeners := fun _ => none }

/-- `EventEmitter.on`: create the array if absent, then push the listener at
the end. -/
def emitterOn (em : EventEmitter) (name : String) (l : Handler) : EventEmitter :=
  match em.listeners name with
  | none => { listeners := updS em.listeners name (some [l]) }
  | some ls => { listeners := updS em.listeners name (some (ls ++ [l])) }

/-- `EventEmitter.off`: filter out every occurrence of the listener. -/
def emitterOff (em : EventEmitter) (name : String) (l : Handler) : EventEmitter :=
  match em.listeners name with
  | none => em
  | some ls =>
    { listeners := updS em.listeners name (some (ls.filter (fun x => x ≠ l))) }

/-- Invoke one handler with the call arguments against the shared log. -/
def runHandler (hd : Handler) (args : List Value) (lg : EventLog) :
    Except Err EventLog :=
  match hd with
  | .log tag => .ok (lg ++ [(tag, args)])
  | .hThrows e => .error (.userError e)

/-- `forEach(l => l(...parameters))`: invoke the handlers in array order; a
throw propagates immediately. -/
def runHandlers (hs : List Handler) (args : List Value) (lg : EventLog) :
    Except Err EventLog :=
  match hs with
  | [] => .ok lg
  | hd :: rest =>
    match runHandler hd args lg with
    | .ok lg1 => runHandlers rest args lg1
    | .error e => .error e

/-- `EventEmitter.emit`: when a listener array exists for `name`, invoke all
its handlers in order; otherwise do nothing. -/
def emit (em : EventEmitter) (name : String) (args : List Value) (lg : EventLog) :
    Except Err EventLog :=
  match em.listeners name with
  | none => .ok lg
  | some hs => runHandlers hs args lg

/-! ### Helper lemmas -/

@[simp] theorem truthy_vObj (k : Nat) : (Value.vObj k).truthy = true := rfl

@[simp] theorem truthy_vNull : Value.vNull.truthy = false := rfl

/-- When `name` is in `r`'s own table, `getRequiredService` is the lifetime
switch and the parent is never consulted. -/
theorem getRequiredService_eq_local (h : Heap) (r : Nat) (name : String)
    (res : Heap × Except Err Value) (hres : resolveLocal h r name = some res) :
    getRequiredService h r name = res := by
  simp [getRequiredService, getRequiredServiceAux, hres]

/-- With any fuel left, a hit in the registry's own table settles the
resolution. -/
theorem getRequiredServiceAux_pos (fuel : Nat) (h : Heap) (r : Nat)
    (name : String) (res : Heap × Except Err Value) (hpos : 0 < fuel)
    (hres : resolveLocal h r name = some res) :
    getRequiredServiceAux fuel h r name = res := by
  cases fuel with
  | zero => exact absurd hpos (by simp)
  | succ k => simp [getRequiredServiceAux, hres]

/-- With any fuel left, a miss in the registry's own table delegates the
whole resolution to the parent. -/
theorem getRequiredServiceAux_parent (fuel : Nat) (h : Heap) (r p : Nat)
    (name : String) (hpos : 0 < fuel)
    (hmiss : resolveLocal h r name = none)
    (hp : (h.regs r).parent = some p) :
    getRequiredServiceAux fuel h r name
      = getRequiredServiceAux (fuel - 1) h p name := by
  cases fuel with
  | zero => exact absurd hpos (by simp)
  | succ k => simp [getRequiredServiceAux, hmiss, hp]

/-! ### C1: visibility of parent registrations made after scope creation -/

/-- C1 is false on the code: with the root registry `0`, a child scope `c`
created while the root was empty, and `"n"` registered on the root
afterwards, `c.getRequiredService("n")` does not fail with the not-found
error — the lookup misses `c`'s snapshot table but succeeds through the
parent pointer, returning the root's instance. -/
theorem c1_counterexample :
    (getRequiredService (addSingleton (createScope initHeap 0).1 0 "n" (.vInt 7))
        (createScope initHeap 0).2 "n").2 = .ok (.vInt 7) ∧
    raisesNotFound
      (getRequiredService (addSingleton (createScope initHeap 0).1 0 "n" (.vInt 7))
        (createScope initHeap 0).2 "n").2 = false := by
  constructor <;> rfl

/-- C1 (amended): for every registry `r` and child scope `c` of `r` — the
hypotheses are exactly what `createScope` establishes for a name never
registered on the child: `c` carries a parent pointer to `r`, its id is
above `r`'s, and its own table has no entry for the name — a name
registered on `r` AFTER `c` was created IS resolvable from the pre-existing
child `c`: resolution misses `c`'s snapshot table and delegates to the
parent, returning the parent's instance.  A scope created from `r` after
the registration likewise resolves the name. -/
theorem c1_amended (h : Heap) (r c : Nat) (name : String) (v : Value)
    (hrc : r < c)
    (hparent : (h.regs c).parent = some r)
    (hcnone : (h.regs c).services name = none) :
    (getRequiredService (addSingleton h r name v) c name).2 = .ok v ∧
    (getRequiredService (createScope (addSingleton h r name v) r).1
        (createScope (addSingleton h r name v) r).2 name).2 = .ok v := by
  have hcr : c ≠ r := (Nat.ne_of_lt hrc).symm
  constructor
  · have hmiss : resolveLocal (addSingleton h r name v) c name = none := by
      simp [resolveLocal, addSingleton, addDescriptor, setServiceEntry, setReg,
        hcr, hcnone]
    have hpar2 : ((addSingleton h r name v).regs c).parent = some r := by
      simp [addSingleton, addDescriptor, setServiceEntry, setReg, hcr, hparent]
    have hloc : resolveLocal (addSingleton h r name v) r name
        = some (addSingleton h r name v, .ok v) := by
      simp [resolveLocal, addSingleton, addDescriptor, setServiceEntry, setReg]
    rw [getRequiredService,
      getRequiredServiceAux_parent (c + 1) (addSingleton h r name v) c r name
        (by omega) hmiss hpar2,
      getRequiredServiceAux_pos (c + 1 - 1) (addSingleton h r name v) r name
        (addSingleton h r name v, .ok v) (by omega) hloc]
  · simp [getRequiredService, getRequiredServiceAux, resolveLocal, addSingleton,
      addDescriptor, setServiceEntry, setReg, createScope]

/-- Witness for C1 (amended): the root registry of the initial heap and its
first child scope, with `"n"` registered on the root afterwards — both the
pre-existing child and a newly created scope resolve `"n"`. -/
theorem c1_witness :
    ((0 : Nat) < 1 ∧
      (((createScope initHeap 0).1.regs 1).parent = some 0) ∧
      ((createScope initHeap 0).1.regs 1).services "n" = none) ∧
    ((getRequiredService (addSingleton (createScope initHeap 0).1 0 "n" (.vInt 7))
        1 "n").2 = .ok (.vInt 7) ∧
      (getRequiredService
          (createScope (addSingleton (createScope initHeap 0).1 0 "n" (.vInt 7)) 0).1
          (createScope (addSingleton (createScope initHeap 0).1 0 "n" (.vInt 7)) 0).2
          "n").2 = .ok (.vInt 7)) :=
  ⟨⟨by decide, by decide, by decide⟩,
   c1_amended (createScope initHeap 0).1 0 1 "n" (.vInt 7)
     (by decide) (by decide) (by decide)⟩

/-! ### C2: `getService` versus `getRequiredService` -/

/-- C2 is false on the code: for a transient registration whose factory
throws a non-not-found error, `getService` returns `undefined` although
`getRequiredService` raises the factory's own error, not the container's
not-found error — `getService` catches every exception, not only
`ServiceNotFoundError`. -/
theorem c2_counterexample :
    (getService (addTransient (withFactory initHeap 0 (.fThrows 5)) 0 "n" 0)
        0 "n").2 = .vUndefined ∧
    (getRequiredService (addTransient (withFactory initHeap 0 (.fThrows 5)) 0 "n" 0)
        0 "n").2 = .error (.userError 5) ∧
    raisesNotFound
      (getRequiredService (addTransient (withFactory initHeap 0 (.fThrows 5)) 0 "n" 0)
        0 "n").2 = false := by
  refine ⟨?_, ?_, ?_⟩ <;> rfl

/-- C2 (amended): for every registry and name, `getService` returns
`undefined` exactly when `getRequiredService` raises some error (of any
kind, not only the not-found error) or itself produces `undefined`;
`getService` itself is total and never raises (it is modelled as a function
into values). -/
theorem c2_amended (h : Heap) (r : Nat) (name : String) :
    (getService h r name).2 = .vUndefined ↔
      (∃ e, (getRequiredService h r name).2 = .error e) ∨
        (getRequiredService h r name).2 = .ok .vUndefined := by
  rcases hres : getRequiredService h r name with ⟨h1, res⟩
  cases res <;> simp [getService, hres]

/-! ### C3: lazy singleton factory runs once -/

/-- C3 is false on the code: the lazy check is `!descriptor.implementation`
(JavaScript truthiness), so a factory returning the falsy value `0` is
invoked again on the second resolution — after two `getRequiredService`
calls its invocation count is `2`, not `1`. -/
theorem c3_counterexample :
    (getRequiredService
        (getRequiredService
          (addSingletonFactory (withFactory initHeap 0 (.const (.vInt 0))) 0 "n" 0)
          0 "n").1
        0 "n").1.facCalls 0 = 2 ∧
    ¬ (getRequiredService
        (getRequiredService
          (addSingletonFactory (withFactory initHeap 0 (.const (.vInt 0))) 0 "n" 0)
          0 "n").1
        0 "n").1.facCalls 0 = 1 := by
  constructor <;> decide

/-- C3 (amended): for a name registered via `addSingletonFactory` whose
factory produces truthy values (the not-yet-materialized implementation is
falsy, as the registration leaves it `null`), two `getRequiredService`
calls on the same registry invoke the factory exactly once — on the first,
lazily — and both return the identical instance.  (With a falsy-returning
factory the truthiness-based lazy check re-invokes it on every
resolution.) -/
theorem c3_amended (h : Heap) (r : Nat) (name : String) (did fid : Nat)
    (impl : Value)
    (hserv : (h.regs r).services name = some did)
    (hdesc : h.descs did = ⟨impl, .Singleton, some fid⟩)
    (himpl : impl.truthy = false)
    (htr : (h.facs fid).alwaysTruthy = true) :
    ∃ v : Value,
      (getRequiredService h r name).2 = .ok v ∧
      (getRequiredService (getRequiredService h r name).1 r name).2 = .ok v ∧
      (getRequiredService (getRequiredService h r name).1 r name).1.facCalls fid
        = h.facCalls fid + 1 := by
  rcases hfac : h.facs fid with v | _ | _ | e
  case const =>
    rw [hfac] at htr
    simp only [Factory.alwaysTruthy] at htr
    refine ⟨v, ?_, ?_, ?_⟩ <;>
      simp [getRequiredService, getRequiredServiceAux, resolveLocal, hserv,
        hdesc, himpl, runFactory, hfac, htr]
  case freshObj =>
    refine ⟨.vObj h.nextObj, ?_, ?_, ?_⟩ <;>
      simp [getRequiredService, getRequiredServiceAux, resolveLocal, hserv,
        hdesc, himpl, runFactory, hfac]
  case counter =>
    rw [hfac] at htr
    simp [Factory.alwaysTruthy] at htr
  case fThrows =>
    rw [hfac] at htr
    simp [Factory.alwaysTruthy] at htr

/-- Witness for C3 (amended): a fresh-object singleton factory on the root
registry is invoked once across two resolutions, which both return the same
object. -/
theorem c3_witness :
    ((addSingletonFactory (withFactory initHeap 0 .freshObj) 0 "n" 0).regs 0).services
        "n" = some 0 ∧
    (addSingletonFactory (withFactory initHeap 0 .freshObj) 0 "n" 0).descs 0
        = ⟨.vNull, .Singleton, some 0⟩ ∧
    (∃ v : Value,
      (getRequiredService
          (addSingletonFactory (withFactory initHeap 0 .freshObj) 0 "n" 0) 0 "n").2
        = .ok v ∧
      (getRequiredService
          (getRequiredService
            (addSingletonFactory (withFactory initHeap 0 .freshObj) 0 "n" 0) 0 "n").1
          0 "n").2 = .ok v ∧
      (getRequiredService
          (getRequiredService
            (addSingletonFactory (withFactory initHeap 0 .freshObj) 0 "n" 0) 0 "n").1
          0 "n").1.facCalls 0
        = (addSingletonFactory (withFactory initHeap 0 .freshObj) 0 "n" 0).facCalls 0
            + 1) :=
  ⟨by decide, by decide,
   c3_amended (addSingletonFactory (withFactory initHeap 0 .freshObj) 0 "n" 0)
     0 "n" 0 0 .vNull (by decide) (by decide) (by decide) (by decide)⟩

/-! ### C4: factory errors propagate unchanged and do not poison caches -/

/-- C4: for a Singleton (not yet materialized) or Scoped (not yet cached)
registration whose factory throws, `getRequiredService` propagates exactly
the factory's error, leaves every descriptor and every registry (in
particular the singleton implementation slot and the scoped cache)
unchanged, records the invocation, and a second `getRequiredService`
invokes the factory again and fails the same way. -/
theorem c4_factory_error (h : Heap) (r : Nat) (name : String)
    (did fid e : Nat) (impl : Value) (lt : ServiceLifetime)
    (hserv : (h.regs r).services name = some did)
    (hdesc : h.descs did = ⟨impl, lt, some fid⟩)
    (hfac : h.facs fid = .fThrows e)
    (hcase : (lt = .Singleton ∧ impl.truthy = false) ∨
             (lt = .Scoped ∧ (h.regs r).scopedInstances name = none)) :
    (getRequiredService h r name).2 = .error (.userError e) ∧
    (getRequiredService h r name).1.descs = h.descs ∧
    (getRequiredService h r name).1.regs = h.regs ∧
    (getRequiredService h r name).1.facCalls fid = h.facCalls fid + 1 ∧
    (getRequiredService (getRequiredService h r name).1 r name).2
        = .error (.userError e) ∧
    (getRequiredService (getRequiredService h r name).1 r name).1.facCalls fid
        = h.facCalls fid + 1 + 1 := by
  rcases hcase with ⟨hlt, himpl⟩ | ⟨hlt, hmiss⟩
  · subst hlt
    refine ⟨?_, ?_, ?_, ?_, ?_, ?_⟩ <;>
      simp [getRequiredService, getRequiredServiceAux, resolveLocal, hserv,
        hdesc, himpl, runFactory, hfac]
  · subst hlt
    refine ⟨?_, ?_, ?_, ?_, ?_, ?_⟩ <;>
      simp [getRequiredService, getRequiredServiceAux, resolveLocal, hserv,
        hdesc, hmiss, runFactory, hfac]

/-- Witness for C4: a throwing singleton factory on the root registry —
both resolutions fail with the factory's own error and the factory is
retried. -/
theorem c4_witness :
    ((addSingletonFactory (withFactory initHeap 0 (.fThrows 7)) 0 "n" 0).regs 0).services
        "n" = some 0 ∧
    (addSingletonFactory (withFactory initHeap 0 (.fThrows 7)) 0 "n" 0).descs 0
        = ⟨.vNull, .Singleton, some 0⟩ ∧
    (getRequiredService
        (addSingletonFactory (withFactory initHeap 0 (.fThrows 7)) 0 "n" 0) 0 "n").2
      = .error (.userError 7) ∧
    (getRequiredService
        (getRequiredService
          (addSingletonFactory (withFactory initHeap 0 (.fThrows 7)) 0 "n" 0) 0 "n").1
        0 "n").2 = .error (.userError 7) :=
  ⟨by decide, by decide,
   (c4_factory_error (addSingletonFactory (withFactory initHeap 0 (.fThrows 7)) 0 "n" 0)
      0 "n" 0 0 7 .vNull .Singleton (by decide) (by decide) (by decide)
      (Or.inl ⟨rfl, by decide⟩)).1,
   (c4_factory_error (addSingletonFactory (withFactory initHeap 0 (.fThrows 7)) 0 "n" 0)
      0 "n" 0 0 7 .vNull .Singleton (by decide) (by decide) (by decide)
      (Or.inl ⟨rfl, by decide⟩)).2.2.2.2.1⟩

/-! ### C5: scoped lifetime — once per registry, independent across siblings -/

/-- C5: for a name registered via `addScoped` (with a non-throwing factory
and no instance cached yet), two resolutions within one registry invoke the
factory once in total and return the identical instance; and, for a
fresh-object factory, sibling scopes created from the same registry
materialize distinct instances. -/
theorem c5_scoped (h : Heap) (r : Nat) (name : String) (fid : Nat)
    (hr : r < h.nextReg)
    (hnt : (h.facs fid).nonThrowing = true)
    (hmiss : (h.regs r).scopedInstances name = none) :
    (∃ v : Value,
      (getRequiredService (addScoped h r name fid) r name).2 = .ok v ∧
      (getRequiredService (getRequiredService (addScoped h r name fid) r name).1
          r name).2 = .ok v ∧
      (getRequiredService (getRequiredService (addScoped h r name fid) r name).1
          r name).1.facCalls fid = h.facCalls fid + 1) ∧
    (h.facs fid = .freshObj →
      (getRequiredService
          (createScope (createScope (addScoped h r name fid) r).1 r).1
          (createScope (addScoped h r name fid) r).2 name).2
        = .ok (.vObj h.nextObj) ∧
      (getRequiredService
          (getRequiredService
            (createScope (createScope (addScoped h r name fid) r).1 r).1
            (createScope (addScoped h r name fid) r).2 name).1
          (createScope (createScope (addScoped h r name fid) r).1 r).2 name).2
        = .ok (.vObj (h.nextObj + 1)) ∧
      Value.vObj h.nextObj ≠ Value.vObj (h.nextObj + 1)) := by
  have hne1 : r ≠ h.nextReg := Nat.ne_of_lt hr
  have hne2 : r ≠ h.nextReg + 1 := Nat.ne_of_lt (Nat.lt_succ_of_lt hr)
  have hne3 : h.nextReg ≠ h.nextReg + 1 := Nat.ne_of_lt (Nat.lt_succ_self _)
  have hne4 : h.nextReg + 1 ≠ h.nextReg := Nat.succ_ne_self _
  constructor
  · rcases hfac : h.facs fid with v | _ | _ | e
    case const =>
      refine ⟨v, ?_, ?_, ?_⟩ <;>
        simp [getRequiredService, getRequiredServiceAux, resolveLocal, addScoped,
          addDescriptor, setServiceEntry, setScopedInstance, setReg, runFactory,
          hmiss, hfac]
    case freshObj =>
      refine ⟨.vObj h.nextObj, ?_, ?_, ?_⟩ <;>
        simp [getRequiredService, getRequiredServiceAux, resolveLocal, addScoped,
          addDescriptor, setServiceEntry, setScopedInstance, setReg, runFactory,
          hmiss, hfac]
    case counter =>
      refine ⟨.vInt (h.facCalls fid), ?_, ?_, ?_⟩ <;>
        simp [getRequiredService, getRequiredServiceAux, resolveLocal, addScoped,
          addDescriptor, setServiceEntry, setScopedInstance, setReg, runFactory,
          hmiss, hfac]
    case fThrows =>
      rw [hfac] at hnt
      simp [Factory.nonThrowing] at hnt
  · intro hfo
    refine ⟨?_, ?_, ?_⟩ <;>
      simp [getRequiredService, getRequiredServiceAux, resolveLocal, addScoped,
        addDescriptor, setServiceEntry, setScopedInstance, setReg, createScope,
        runFactory, hmiss, hfo, hne1, hne2, hne3, hne4]

/-- Witness for C5: a fresh-object scoped factory on the root registry of
the initial heap. -/
theorem c5_witness :
    (0 < initHeap.nextReg ∧ (initHeap.facs 0).nonThrowing = true ∧
      (initHeap.regs 0).scopedInstances "ctx" = none) ∧
    (∃ v : Value,
      (getRequiredService (addScoped initHeap 0 "ctx" 0) 0 "ctx").2 = .ok v ∧
      (getRequiredService
          (getRequiredService (addScoped initHeap 0 "ctx" 0) 0 "ctx").1
          0 "ctx").2 = .ok v ∧
      (getRequiredService
          (getRequiredService (addScoped initHeap 0 "ctx" 0) 0 "ctx").1
          0 "ctx").1.facCalls 0 = initHeap.facCalls 0 + 1) :=
  ⟨⟨by decide, by decide, by rfl⟩,
   (c5_scoped initHeap 0 "ctx" 0 (by decide) (by decide) (by rfl)).1⟩

/-! ### C6: scope override and registration frame conditions -/

/-- C6: with `name` registered on registry `p` carrying `v1` and a child
scope that re-registers `name` with `v2`, the child resolves `v2` while `p`
still resolves `v1`; moreover the child's registration touched no other
registry object and no previously allocated descriptor object. -/
theorem c6_scope_override (h : Heap) (p : Nat) (name : String) (v1 v2 : Value)
    (r' d : Nat) (hp : p < h.nextReg) (hr' : r' ≠ h.nextReg)
    (hd : d < h.nextDesc + 1) :
    (getRequiredService
        (addSingleton (createScope (addSingleton h p name v1) p).1
          (createScope (addSingleton h p name v1) p).2 name v2)
        (createScope (addSingleton h p name v1) p).2 name).2 = .ok v2 ∧
    (getRequiredService
        (addSingleton (createScope (addSingleton h p name v1) p).1
          (createScope (addSingleton h p name v1) p).2 name v2)
        p name).2 = .ok v1 ∧
    (addSingleton (createScope (addSingleton h p name v1) p).1
        (createScope (addSingleton h p name v1) p).2 name v2).regs r'
      = (createScope (addSingleton h p name v1) p).1.regs r' ∧
    (addSingleton (createScope (addSingleton h p name v1) p).1
        (createScope (addSingleton h p name v1) p).2 name v2).descs d
      = (createScope (addSingleton h p name v1) p).1.descs d := by
  have hne1 : p ≠ h.nextReg := Nat.ne_of_lt hp
  have hne2 : h.nextDesc ≠ h.nextDesc + 1 := Nat.ne_of_lt (Nat.lt_succ_self _)
  have hne3 : d ≠ h.nextDesc + 1 := Nat.ne_of_lt hd
  refine ⟨?_, ?_, ?_, ?_⟩ <;>
    simp [getRequiredService, getRequiredServiceAux, resolveLocal, addSingleton,
      addDescriptor, setServiceEntry, setReg, createScope, hne1, hne2, hne3, hr']

/-- Witness for C6: root registry `0` holds `"hi"`, its scope re-registers
`"yo"`; the scope resolves `"yo"`, the root still resolves `"hi"`, and
registry `5` and descriptor `0` are untouched by the child registration. -/
theorem c6_witness :
    (0 < initHeap.nextReg ∧ (5 : Nat) ≠ initHeap.nextReg ∧
      (0 : Nat) < initHeap.nextDesc + 1) ∧
    (getRequiredService
        (addSingleton (createScope (addSingleton initHeap 0 "greeting" (.vStr "hi")) 0).1
          (createScope (addSingleton initHeap 0 "greeting" (.vStr "hi")) 0).2
          "greeting" (.vStr "yo"))
        (createScope (addSingleton initHeap 0 "greeting" (.vStr "hi")) 0).2
        "greeting").2 = .ok (.vStr "yo") ∧
    (getRequiredService
        (addSingleton (createScope (addSingleton initHeap 0 "greeting" (.vStr "hi")) 0).1
          (createScope (addSingleton initHeap 0 "greeting" (.vStr "hi")) 0).2
          "greeting" (.vStr "yo"))
        0 "greeting").2 = .ok (.vStr "hi") :=
  ⟨⟨by decide, by decide, by decide⟩,
   (c6_scope_override initHeap 0 "greeting" (.vStr "hi") (.vStr "yo") 5 0
      (by decide) (by decide) (by decide)).1,
   (c6_scope_override initHeap 0 "greeting" (.vStr "hi") (.vStr "yo") 5 0
      (by decide) (by decide) (by decide)).2.1⟩

/-! ### C7: transient lifetime — a fresh invocation per resolution -/

/-- C7: for a name registered via `addTransient`, every resolution invokes
the factory anew (two resolutions add two invocations, whatever the
factory); a fresh-object factory yields two distinct instances by identity;
and a counter factory never invoked before yields `0` then `1`. -/
theorem c7_transient (h : Heap) (r : Nat) (name : String) (did fid : Nat)
    (impl : Value)
    (hserv : (h.regs r).services name = some did)
    (hdesc : h.descs did = ⟨impl, .Transient, some fid⟩) :
    (getRequiredService (getRequiredService h r name).1 r name).1.facCalls fid
        = h.facCalls fid + 1 + 1 ∧
    (h.facs fid = .freshObj →
      (getRequiredService h r name).2 = .ok (.vObj h.nextObj) ∧
      (getRequiredService (getRequiredService h r name).1 r name).2
        = .ok (.vObj (h.nextObj + 1)) ∧
      Value.vObj h.nextObj ≠ Value.vObj (h.nextObj + 1)) ∧
    (h.facs fid = .counter → h.facCalls fid = 0 →
      (getRequiredService h r name).2 = .ok (.vInt 0) ∧
      (getRequiredService (getRequiredService h r name).1 r name).2
        = .ok (.vInt 1)) := by
  refine ⟨?_, ?_, ?_⟩
  · rcases hfac : h.facs fid with v | _ | _ | e <;>
      simp [getRequiredService, getRequiredServiceAux, resolveLocal, hserv,
        hdesc, runFactory, hfac]
  · intro hfo
    refine ⟨?_, ?_, ?_⟩ <;>
      simp [getRequiredService, getRequiredServiceAux, resolveLocal, hserv,
        hdesc, runFactory, hfo]
  · intro hfo hc0
    refine ⟨?_, ?_⟩ <;>
      simp [getRequiredService, getRequiredServiceAux, resolveLocal, hserv,
        hdesc, runFactory, hfo, hc0]

/-- Witness for C7: a counter transient on the root registry yields `0`
then `1`. -/
theorem c7_witness :
    (((addTransient (withFactory initHeap 0 .counter) 0 "c" 0).regs 0).services "c"
        = some 0 ∧
      (addTransient (withFactory initHeap 0 .counter) 0 "c" 0).descs 0
        = ⟨.vNull, .Transient, some 0⟩) ∧
    (getRequiredService (addTransient (withFactory initHeap 0 .counter) 0 "c" 0)
        0 "c").2 = .ok (.vInt 0) ∧
    (getRequiredService
        (getRequiredService (addTransient (withFactory initHeap 0 .counter) 0 "c" 0)
          0 "c").1 0 "c").2 = .ok (.vInt 1) :=
  ⟨⟨by decide, by decide⟩,
   (c7_transient (addTransient (withFactory initHeap 0 .counter) 0 "c" 0)
      0 "c" 0 0 .vNull (by decide) (by decide)).2.2 (by decide) (by decide)⟩

/-! ### C8: emit invokes all handlers in subscription order; exceptions propagate -/

/-- Running a list of logging handlers appends one entry per handler, in
list order. -/
theorem runHandlers_logs (hs : List Handler) (args : List Value) (lg : EventLog)
    (hlog : ∀ hd ∈ hs, hd.isLog = true) :
    runHandlers hs args lg
      = .ok (lg ++ hs.map (fun hd => (hd.tagOf, args))) := by
  induction hs generalizing lg with
  | nil => simp [runHandlers]
  | cons hd rest ih =>
    have h1 : hd.isLog = true := hlog hd (by simp)
    cases hd with
    | log t =>
      simp [runHandlers, runHandler, Handler.tagOf,
        ih (lg ++ [(t, args)]) (fun x hx => hlog x (by simp [hx]))]
    | hThrows e => simp [Handler.isLog] at h1

/-- Running handlers hits the first throwing handler and propagates its
error. -/
theorem runHandlers_throwing (pre : List Handler) (e : Nat)
    (post : List Handler) (args : List Value) (lg : EventLog)
    (hlog : ∀ hd ∈ pre, hd.isLog = true) :
    runHandlers (pre ++ .hThrows e :: post) args lg = .error (.userError e) := by
  induction pre generalizing lg with
  | nil => simp [runHandlers, runHandler]
  | cons hd rest ih =>
    have h1 : hd.isLog = true := hlog hd (by simp)
    cases hd with
    | log t =>
      simp [runHandlers, runHandler,
        ih (lg ++ [(t, args)]) (fun x hx => hlog x (by simp [hx]))]
    | hThrows e2 => simp [Handler.isLog] at h1

/-- C8: `emit` synchronously invokes all handlers subscribed to the event
name at the moment of the call, in subscription order (each logging handler
appends its entry, in array order, with the call's arguments); and if some
handler throws, `emit` does not catch the exception — the error propagates
unchanged to the caller of `emit`. -/
theorem c8_emit (em : EventEmitter) (name : String) (args : List Value)
    (lg : EventLog) :
    (∀ hs, em.listeners name = some hs → (∀ hd ∈ hs, hd.isLog = true) →
      emit em name args lg = .ok (lg ++ hs.map (fun hd => (hd.tagOf, args)))) ∧
    (∀ pre e post, em.listeners name = some (pre ++ .hThrows e :: post) →
      (∀ hd ∈ pre, hd.isLog = true) →
      emit em name args lg = .error (.userError e)) := by
  constructor
  · intro hs hls hlog
    simp [emit, hls, runHandlers_logs hs args lg hlog]
  · intro pre e post hls hlog
    simp [emit, hls, runHandlers_throwing pre e post args lg hlog]

/-- Witness for C8: three logging handlers subscribed in order `10`, `20`,
`30` run in that order; with a throwing handler between two logging
handlers, `emit` propagates the handler's error. -/
theorem c8_witness :
    emit (emitterOn (emitterOn (emitterOn emptyEmitter "msg" (.log 10)) "msg"
        (.log 20)) "msg" (.log 30)) "msg" [.vInt 4] []
      = .ok [(10, [.vInt 4]), (20, [.vInt 4]), (30, [.vInt 4])] ∧
    emit (emitterOn (emitterOn (emitterOn emptyEmitter "msg" (.log 10)) "msg"
        (.hThrows 9)) "msg" (.log 30)) "msg" [.vInt 4] []
      = .error (.userError 9) :=
  ⟨(c8_emit (emitterOn (emitterOn (emitterOn emptyEmitter "msg" (.log 10)) "msg"
        (.log 20)) "msg" (.log 30)) "msg" [.vInt 4] []).1
      [.log 10, .log 20, .log 30] (by decide) (by decide),
   (c8_emit (emitterOn (emitterOn (emitterOn emptyEmitter "msg" (.log 10)) "msg"
        (.hThrows 9)) "msg" (.log 30)) "msg" [.vInt 4] []).2
      [.log 10] 9 [.log 30] (by decide) (by decide)⟩

/-! ### C9: scope snapshot shares descriptor objects with the parent -/

/-- C9: for a truthy-returning singleton factory registered before the
scope was created, the scope's snapshot shares the descriptor object, so
materializing through either registry fills the single shared
implementation slot: resolving on the child then the parent — or the parent
then the child — runs the factory exactly once in total and yields the
identical instance from both registries. -/
theorem c9_shared_descriptor (h : Heap) (r : Nat) (name : String) (fid : Nat)
    (hr : r < h.nextReg) (htr : (h.facs fid).alwaysTruthy = true) :
    (∃ v : Value,
      (getRequiredService (createScope (addSingletonFactory h r name fid) r).1
          (createScope (addSingletonFactory h r name fid) r).2 name).2 = .ok v ∧
      (getRequiredService
          (getRequiredService (createScope (addSingletonFactory h r name fid) r).1
            (createScope (addSingletonFactory h r name fid) r).2 name).1
          r name).2 = .ok v ∧
      (getRequiredService
          (getRequiredService (createScope (addSingletonFactory h r name fid) r).1
            (createScope (addSingletonFactory h r name fid) r).2 name).1
          r name).1.facCalls fid = h.facCalls fid + 1) ∧
    (∃ v : Value,
      (getRequiredService (createScope (addSingletonFactory h r name fid) r).1
          r name).2 = .ok v ∧
      (getRequiredService
          (getRequiredService (createScope (addSingletonFactory h r name fid) r).1
            r name).1
          (createScope (addSingletonFactory h r name fid) r).2 name).2 = .ok v ∧
      (getRequiredService
          (getRequiredService (createScope (addSingletonFactory h r name fid) r).1
            r name).1
          (createScope (addSingletonFactory h r name fid) r).2 name).1.facCalls fid
        = h.facCalls fid + 1) := by
  have hne1 : r ≠ h.nextReg := Nat.ne_of_lt hr
  rcases hfac : h.facs fid with v | _ | _ | e
  case const =>
    rw [hfac] at htr
    simp only [Factory.alwaysTruthy] at htr
    constructor
    · refine ⟨v, ?_, ?_, ?_⟩ <;>
        simp [getRequiredService, getRequiredServiceAux, resolveLocal,
          addSingletonFactory, addDescriptor, setServiceEntry, setReg,
          createScope, runFactory, hfac, htr, hne1]
    · refine ⟨v, ?_, ?_, ?_⟩ <;>
        simp [getRequiredService, getRequiredServiceAux, resolveLocal,
          addSingletonFactory, addDescriptor, setServiceEntry, setReg,
          createScope, runFactory, hfac, htr, hne1]
  case freshObj =>
    constructor
    · refine ⟨.vObj h.nextObj, ?_, ?_, ?_⟩ <;>
        simp [getRequiredService, getRequiredServiceAux, resolveLocal,
          addSingletonFactory, addDescriptor, setServiceEntry, setReg,
          createScope, runFactory, hfac, hne1]
    · refine ⟨.vObj h.nextObj, ?_, ?_, ?_⟩ <;>
        simp [getRequiredService, getRequiredServiceAux, resolveLocal,
          addSingletonFactory, addDescriptor, setServiceEntry, setReg,
          createScope, runFactory, hfac, hne1]
  case counter =>
    rw [hfac] at htr
    simp [Factory.alwaysTruthy] at htr
  case fThrows =>
    rw [hfac] at htr
    simp [Factory.alwaysTruthy] at htr

/-- Witness for C9: a fresh-object singleton factory registered on the root
before scope creation; resolving child-then-parent shares one instance and
one factory run. -/
theorem c9_witness :
    (0 < initHeap.nextReg ∧
      ((withFactory initHeap 0 .freshObj).facs 0).alwaysTruthy = true) ∧
    (∃ v : Value,
      (getRequiredService
          (createScope (addSingletonFactory (withFactory initHeap 0 .freshObj)
            0 "s" 0) 0).1
          (createScope (addSingletonFactory (withFactory initHeap 0 .freshObj)
            0 "s" 0) 0).2 "s").2 = .ok v ∧
      (getRequiredService
          (getRequiredService
            (createScope (addSingletonFactory (withFactory initHeap 0 .freshObj)
              0 "s" 0) 0).1
            (createScope (addSingletonFactory (withFactory initHeap 0 .freshObj)
              0 "s" 0) 0).2 "s").1
          0 "s").2 = .ok v ∧
      (getRequiredService
          (getRequiredService
            (createScope (addSingletonFactory (withFactory initHeap 0 .freshObj)
              0 "s" 0) 0).1
            (createScope (addSingletonFactory (withFactory initHeap 0 .freshObj)
              0 "s" 0) 0).2 "s").1
          0 "s").1.facCalls 0
        = (withFactory initHeap 0 .freshObj).facCalls 0 + 1) :=
  ⟨⟨by decide, by decide⟩,
   (c9_shared_descriptor (withFactory initHeap 0 .freshObj) 0 "s" 0
      (by decide) (by decide)).1⟩

/-! ### C10: the scoped cache survives re-registration -/

/-- C10: after a scoped name has been materialized in a registry's private
cache, re-registering the same name via `addScoped` with a second factory
changes only the descriptor table — the next resolution still returns the
previously cached instance, the heap is left completely unchanged by that
resolution, and in particular the new factory is never invoked. -/
theorem c10_scoped_cache_kept (h : Heap) (r : Nat) (name : String)
    (fid1 fid2 : Nat)
    (hnt : (h.facs fid1).nonThrowing = true)
    (hmiss : (h.regs r).scopedInstances name = none) :
    ∃ v : Value,
      (getRequiredService (addScoped h r name fid1) r name).2 = .ok v ∧
      (getRequiredService
          (addScoped (getRequiredService (addScoped h r name fid1) r name).1
            r name fid2)
          r name)
        = (addScoped (getRequiredService (addScoped h r name fid1) r name).1
            r name fid2, .ok v) := by
  rcases hfac : h.facs fid1 with v | _ | _ | e
  case const =>
    refine ⟨v, ?_, ?_⟩ <;>
      simp [getRequiredService, getRequiredServiceAux, resolveLocal, addScoped,
        addDescriptor, setServiceEntry, setScopedInstance, setReg, runFactory,
        hmiss, hfac]
  case freshObj =>
    refine ⟨.vObj h.nextObj, ?_, ?_⟩ <;>
      simp [getRequiredService, getRequiredServiceAux, resolveLocal, addScoped,
        addDescriptor, setServiceEntry, setScopedInstance, setReg, runFactory,
        hmiss, hfac]
  case counter =>
    refine ⟨.vInt (h.facCalls fid1), ?_, ?_⟩ <;>
      simp [getRequiredService, getRequiredServiceAux, resolveLocal, addScoped,
        addDescriptor, setServiceEntry, setScopedInstance, setReg, runFactory,
        hmiss, hfac]
  case fThrows =>
    rw [hfac] at hnt
    simp [Factory.nonThrowing] at hnt

/-- Witness for C10: a constant scoped factory materializes `3`;
re-registering with a second factory (id `1`, which would produce `9`)
leaves resolution returning `3` and heap state untouched, so the second
factory's call count stays `0`. -/
theorem c10_witness :
    (((withFactory (withFactory initHeap 0 (.const (.vInt 3))) 1
          (.const (.vInt 9))).facs 0).nonThrowing = true ∧
      ((withFactory (withFactory initHeap 0 (.const (.vInt 3))) 1
          (.const (.vInt 9))).regs 0).scopedInstances "k" = none) ∧
    (∃ v : Value,
      (getRequiredService
          (addScoped (withFactory (withFactory initHeap 0 (.const (.vInt 3))) 1
            (.const (.vInt 9))) 0 "k" 0) 0 "k").2 = .ok v ∧
      (getRequiredService
          (addScoped
            (getRequiredService
              (addScoped (withFactory (withFactory initHeap 0 (.const (.vInt 3))) 1
                (.const (.vInt 9))) 0 "k" 0) 0 "k").1
            0 "k" 1)
          0 "k")
        = (addScoped
            (getRequiredService
              (addScoped (withFactory (withFactory initHeap 0 (.const (.vInt 3))) 1
                (.const (.vInt 9))) 0 "k" 0) 0 "k").1
            0 "k" 1, .ok v)) :=
  ⟨⟨by decide, by rfl⟩,
   c10_scoped_cache_kept
     (withFactory (withFactory initHeap 0 (.const (.vInt 3))) 1 (.const (.vInt 9)))
     0 "k" 0 1 (by decide) (by rfl)⟩
